import Mathlib

/-!
# DownloaderOptions

A shallow embedding of `libparabolic/src/models/downloaderoptions.cpp`
(namespace `Nickvision::TubeConverter::Shared::Models`): the options record,
its constructor and its nineteen accessor/mutator pairs, followed by the
properties proved about them.

Conventions of the embedding:
* `int` parameters and members are `Int`; the mutators only compare them with
  literals, so no arithmetic can overflow;
* `unsigned int` is `Nat`; the only `unsigned int` ever stored is either the
  argument (when it lies in `[512, 10240]`) or the literal `1024`;
* `std::string` and `std::filesystem::path` are `String`;
* a `void` member function that assigns to a member is a function returning
  the updated record;
* `Environment::getOperatingSystem()` is an argument of the constructor.
-/

set_option autoImplicit false
set_option linter.dupNamespace false

namespace Nickvision.TubeConverter.Shared.Models

/-- Modelled from the spec: the enumeration `OperatingSystem` of libnick is
declared outside this file. The constructor compares the platform identifier
with `OperatingSystem::Windows` only, so the model is that member together
with every other identifier of the closed set, told apart by a tag. -/
inductive OperatingSystem where
  | Windows
  | other (id : Nat)
  deriving DecidableEq, Repr

/-- Modelled from the spec: the enumeration `VideoCodec` is declared in a
header outside this file. It is a closed set of named alternatives with the
"no preference" member `VideoCodec::Any`, the only member this file names;
the remaining members are told apart by a tag. -/
inductive VideoCodec where
  | Any
  | other (id : Nat)
  deriving DecidableEq, Repr

/-- Modelled from the spec: the enumeration `Browser` is declared in a header
outside this file. It is a closed set of named alternatives with the "none"
member `Browser::None`, the only member this file names; the remaining
members are told apart by a tag. -/
inductive Browser where
  | None
  | other (id : Nat)
  deriving DecidableEq, Repr

/-- The data members of `DownloaderOptions`, in the order in which the
constructor initialises them (`m_cookiesPath` has no initialiser). -/
structure DownloaderOptions where
  m_overwriteExistingFiles : Bool
  m_maxNumberOfActiveDownloads : Int
  m_limitCharacters : Bool
  m_includeAutoGeneratedSubtitles : Bool
  m_preferredVideoCodec : VideoCodec
  m_useAria : Bool
  m_ariaMaxConnectionsPerServer : Int
  m_ariaMinSplitSize : Int
  m_speedLimit : Nat
  m_proxyUrl : String
  m_cookiesBrowser : Browser
  m_cookiesPath : String
  m_youTubeSponsorBlock : Bool
  m_embedMetadata : Bool
  m_cropAudioThumbnails : Bool
  m_removeSourceData : Bool
  m_embedChapters : Bool
  m_embedSubtitles : Bool
  m_ffmpegArgs : String
  deriving DecidableEq, Repr

/-- The accessor `bool DownloaderOptions::getOverwriteExistingFiles() const`. -/
def DownloaderOptions.getOverwriteExistingFiles (self : DownloaderOptions) : Bool :=
  self.m_overwriteExistingFiles

/-- The mutator `void DownloaderOptions::setOverwriteExistingFiles(bool overwrite)`: a plain
assignment to `m_overwriteExistingFiles`. -/
def DownloaderOptions.setOverwriteExistingFiles (self : DownloaderOptions) (overwrite : Bool) :
    DownloaderOptions :=
  { self with m_overwriteExistingFiles := overwrite }

/-- The accessor `int DownloaderOptions::getMaxNumberOfActiveDownloads() const`. -/
def DownloaderOptions.getMaxNumberOfActiveDownloads (self : DownloaderOptions) : Int :=
  self.m_maxNumberOfActiveDownloads

/-- The mutator `void DownloaderOptions::setMaxNumberOfActiveDownloads(int max)`: when
`max < 1 || max > 10` the parameter is overwritten with `5`, and the
parameter is then assigned to `m_maxNumberOfActiveDownloads`. -/
def DownloaderOptions.setMaxNumberOfActiveDownloads (self : DownloaderOptions) (max : Int) :
    DownloaderOptions :=
  let max := if max < 1 ∨ max > 10 then 5 else max
  { self with m_maxNumberOfActiveDownloads := max }

/-- The accessor `bool DownloaderOptions::getLimitCharacters() const`. -/
def DownloaderOptions.getLimitCharacters (self : DownloaderOptions) : Bool :=
  self.m_limitCharacters

/-- The mutator `void DownloaderOptions::setLimitCharacters(bool limit)`: a plain
assignment to `m_limitCharacters`. -/
def DownloaderOptions.setLimitCharacters (self : DownloaderOptions) (limit : Bool) :
    DownloaderOptions :=
  { self with m_limitCharacters := limit }

/-- The accessor `bool DownloaderOptions::getIncludeAutoGeneratedSubtitles() const`. -/
def DownloaderOptions.getIncludeAutoGeneratedSubtitles (self : DownloaderOptions) : Bool :=
  self.m_includeAutoGeneratedSubtitles

/-- The mutator `void DownloaderOptions::setIncludeAutoGeneratedSubtitles(bool include)`
(the parameter is spelt `include_` here, `include` being reserved): a plain
assignment to `m_includeAutoGeneratedSubtitles`. -/
def DownloaderOptions.setIncludeAutoGeneratedSubtitles (self : DownloaderOptions) (include_ : Bool) :
    DownloaderOptions :=
  { self with m_includeAutoGeneratedSubtitles := include_ }

/-- The accessor `VideoCodec DownloaderOptions::getPreferredVideoCodec() const`. -/
def DownloaderOptions.getPreferredVideoCodec (self : DownloaderOptions) : VideoCodec :=
  self.m_preferredVideoCodec

/-- The mutator `void DownloaderOptions::setPreferredVideoCodec(VideoCodec codec)`: a plain
assignment to `m_preferredVideoCodec`. -/
def DownloaderOptions.setPreferredVideoCodec (self : DownloaderOptions) (codec : VideoCodec) :
    DownloaderOptions :=
  { self with m_preferredVideoCodec := codec }

/-- The accessor `bool DownloaderOptions::getUseAria() const`. -/
def DownloaderOptions.getUseAria (self : DownloaderOptions) : Bool :=
  self.m_useAria

/-- The mutator `void DownloaderOptions::setUseAria(bool useAria)`: a plain
assignment to `m_useAria`. -/
def DownloaderOptions.setUseAria (self : DownloaderOptions) (useAria : Bool) :
    DownloaderOptions :=
  { self with m_useAria := useAria }

/-- The accessor `int DownloaderOptions::getAriaMaxConnectionsPerServer() const`. -/
def DownloaderOptions.getAriaMaxConnectionsPerServer (self : DownloaderOptions) : Int :=
  self.m_ariaMaxConnectionsPerServer

/-- The mutator `void DownloaderOptions::setAriaMaxConnectionsPerServer(int maxConnections)`: when
`maxConnections < 1 || maxConnections > 16` the parameter is overwritten with `16`, and the
parameter is then assigned to `m_ariaMaxConnectionsPerServer`. -/
def DownloaderOptions.setAriaMaxConnectionsPerServer (self : DownloaderOptions) (maxConnections : Int) :
    DownloaderOptions :=
  let maxConnections := if maxConnections < 1 ∨ maxConnections > 16 then 16 else maxConnections
  { self with m_ariaMaxConnectionsPerServer := maxConnections }

/-- The accessor `int DownloaderOptions::getAriaMinSplitSize() const`. -/
def DownloaderOptions.getAriaMinSplitSize (self : DownloaderOptions) : Int :=
  self.m_ariaMinSplitSize

/-- The mutator `void DownloaderOptions::setAriaMinSplitSize(int minSplitSize)`: when
`minSplitSize < 1 || minSplitSize > 1024` the parameter is overwritten with `20`, and the
parameter is then assigned to `m_ariaMinSplitSize`. -/
def DownloaderOptions.setAriaMinSplitSize (self : DownloaderOptions) (minSplitSize : Int) :
    DownloaderOptions :=
  let minSplitSize := if minSplitSize < 1 ∨ minSplitSize > 1024 then 20 else minSplitSize
  { self with m_ariaMinSplitSize := minSplitSize }

/-- The accessor `unsigned int DownloaderOptions::getSpeedLimit() const`. -/
def DownloaderOptions.getSpeedLimit (self : DownloaderOptions) : Nat :=
  self.m_speedLimit

/-- The mutator `void DownloaderOptions::setSpeedLimit(unsigned int speedLimit)`: when
`speedLimit < 512 || speedLimit > 10240` the parameter is overwritten with `1024`, and the
parameter is then assigned to `m_speedLimit`. -/
def DownloaderOptions.setSpeedLimit (self : DownloaderOptions) (speedLimit : Nat) :
    DownloaderOptions :=
  let speedLimit := if speedLimit < 512 ∨ speedLimit > 10240 then 1024 else speedLimit
  { self with m_speedLimit := speedLimit }

/-- The accessor `const std::string& DownloaderOptions::getProxyUrl() const`. -/
def DownloaderOptions.getProxyUrl (self : DownloaderOptions) : String :=
  self.m_proxyUrl

/-- The mutator `void DownloaderOptions::setProxyUrl(const std::string& proxyUrl)`: a plain
assignment to `m_proxyUrl`. -/
def DownloaderOptions.setProxyUrl (self : DownloaderOptions) (proxyUrl : String) :
    DownloaderOptions :=
  { self with m_proxyUrl := proxyUrl }

/-- The accessor `Browser DownloaderOptions::getCookiesBrowser() const`. -/
def DownloaderOptions.getCookiesBrowser (self : DownloaderOptions) : Browser :=
  self.m_cookiesBrowser

/-- The mutator `void DownloaderOptions::setCookiesBrowser(Browser browser)`: a plain
assignment to `m_cookiesBrowser`. -/
def DownloaderOptions.setCookiesBrowser (self : DownloaderOptions) (browser : Browser) :
    DownloaderOptions :=
  { self with m_cookiesBrowser := browser }

/-- The accessor `const std::filesystem::path& DownloaderOptions::getCookiesPath() const`. -/
def DownloaderOptions.getCookiesPath (self : DownloaderOptions) : String :=
  self.m_cookiesPath

/-- The mutator `void DownloaderOptions::setCookiesPath(const std::filesystem::path& path)`: a plain
assignment to `m_cookiesPath`. -/
def DownloaderOptions.setCookiesPath (self : DownloaderOptions) (path : String) :
    DownloaderOptions :=
  { self with m_cookiesPath := path }

/-- The accessor `bool DownloaderOptions::getYouTubeSponsorBlock() const`. -/
def DownloaderOptions.getYouTubeSponsorBlock (self : DownloaderOptions) : Bool :=
  self.m_youTubeSponsorBlock

/-- The mutator `void DownloaderOptions::setYouTubeSponsorBlock(bool sponsorBlock)`: a plain
assignment to `m_youTubeSponsorBlock`. -/
def DownloaderOptions.setYouTubeSponsorBlock (self : DownloaderOptions) (sponsorBlock : Bool) :
    DownloaderOptions :=
  { self with m_youTubeSponsorBlock := sponsorBlock }

/-- The accessor `bool DownloaderOptions::getEmbedMetadata() const`. -/
def DownloaderOptions.getEmbedMetadata (self : DownloaderOptions) : Bool :=
  self.m_embedMetadata

/-- The mutator `void DownloaderOptions::setEmbedMetadata(bool embedMetadata)`: a plain
assignment to `m_embedMetadata`. -/
def DownloaderOptions.setEmbedMetadata (self : DownloaderOptions) (embedMetadata : Bool) :
    DownloaderOptions :=
  { self with m_embedMetadata := embedMetadata }

/-- The accessor `bool DownloaderOptions::getCropAudioThumbnails() const`. -/
def DownloaderOptions.getCropAudioThumbnails (self : DownloaderOptions) : Bool :=
  self.m_cropAudioThumbnails

/-- The mutator `void DownloaderOptions::setCropAudioThumbnails(bool cropAudioThumbnails)`: a plain
assignment to `m_cropAudioThumbnails`. -/
def DownloaderOptions.setCropAudioThumbnails (self : DownloaderOptions) (cropAudioThumbnails : Bool) :
    DownloaderOptions :=
  { self with m_cropAudioThumbnails := cropAudioThumbnails }

/-- The accessor `bool DownloaderOptions::getRemoveSourceData() const`. -/
def DownloaderOptions.getRemoveSourceData (self : DownloaderOptions) : Bool :=
  self.m_removeSourceData

/-- The mutator `void DownloaderOptions::setRemoveSourceData(bool removeSourceData)`: a plain
assignment to `m_removeSourceData`. -/
def DownloaderOptions.setRemoveSourceData (self : DownloaderOptions) (removeSourceData : Bool) :
    DownloaderOptions :=
  { self with m_removeSourceData := removeSourceData }

/-- The accessor `bool DownloaderOptions::getEmbedChapters() const`. -/
def DownloaderOptions.getEmbedChapters (self : DownloaderOptions) : Bool :=
  self.m_embedChapters

/-- The mutator `void DownloaderOptions::setEmbedChapters(bool embedChapters)`: a plain
assignment to `m_embedChapters`. -/
def DownloaderOptions.setEmbedChapters (self : DownloaderOptions) (embedChapters : Bool) :
    DownloaderOptions :=
  { self with m_embedChapters := embedChapters }

/-- The accessor `bool DownloaderOptions::getEmbedSubtitles() const`. -/
def DownloaderOptions.getEmbedSubtitles (self : DownloaderOptions) : Bool :=
  self.m_embedSubtitles

/-- The mutator `void DownloaderOptions::setEmbedSubtitles(bool embedSubtitles)`: a plain
assignment to `m_embedSubtitles`. -/
def DownloaderOptions.setEmbedSubtitles (self : DownloaderOptions) (embedSubtitles : Bool) :
    DownloaderOptions :=
  { self with m_embedSubtitles := embedSubtitles }

/-- The accessor `const std::string& DownloaderOptions::getFFmpegArgs() const`. -/
def DownloaderOptions.getFFmpegArgs (self : DownloaderOptions) : String :=
  self.m_ffmpegArgs

/-- The mutator `void DownloaderOptions::setFFmpegArgs(const std::string& ffmpegArgs)`: a plain
assignment to `m_ffmpegArgs`. -/
def DownloaderOptions.setFFmpegArgs (self : DownloaderOptions) (ffmpegArgs : String) :
    DownloaderOptions :=
  { self with m_ffmpegArgs := ffmpegArgs }

/-- The constructor `DownloaderOptions::DownloaderOptions()`. The argument is
the value returned by `Environment::getOperatingSystem()`. The member
`m_cookiesPath` is absent from the initialiser list and is therefore the
default-constructed (empty) path. -/
def DownloaderOptions.DownloaderOptions (getOperatingSystem : OperatingSystem) :
    Models.DownloaderOptions where
  m_overwriteExistingFiles := true
  m_maxNumberOfActiveDownloads := 5
  m_limitCharacters := decide (getOperatingSystem = OperatingSystem.Windows)
  m_includeAutoGeneratedSubtitles := true
  m_preferredVideoCodec := VideoCodec.Any
  m_useAria := false
  m_ariaMaxConnectionsPerServer := 16
  m_ariaMinSplitSize := 20
  m_speedLimit := 1024
  m_proxyUrl := ""
  m_cookiesBrowser := Browser.None
  m_cookiesPath := ""
  m_youTubeSponsorBlock := false
  m_embedMetadata := true
  m_cropAudioThumbnails := false
  m_removeSourceData := false
  m_embedChapters := false
  m_embedSubtitles := true
  m_ffmpegArgs := ""

/-- The nineteen settings of `DownloaderOptions`, one per accessor/mutator
pair, named after the data member without its `m_` prefix. -/
inductive Field where
  | overwriteExistingFiles
  | maxNumberOfActiveDownloads
  | limitCharacters
  | includeAutoGeneratedSubtitles
  | preferredVideoCodec
  | useAria
  | ariaMaxConnectionsPerServer
  | ariaMinSplitSize
  | speedLimit
  | proxyUrl
  | cookiesBrowser
  | cookiesPath
  | youTubeSponsorBlock
  | embedMetadata
  | cropAudioThumbnails
  | removeSourceData
  | embedChapters
  | embedSubtitles
  | ffmpegArgs
  deriving DecidableEq, Repr

/-- What an accessor returns: a value of one of the six types that occur as
the return type of an accessor (`bool`, `int`, `unsigned int`, a string or
path, `VideoCodec`, `Browser`). -/
inductive Value where
  | bool (b : Bool)
  | int (i : Int)
  | uint (n : Nat)
  | string (s : String)
  | codec (c : VideoCodec)
  | browser (b : Browser)
  deriving DecidableEq, Repr

/-- Reading a setting through its accessor. -/
def Field.read (f : Field) (self : DownloaderOptions) : Value :=
  match f with
  | .overwriteExistingFiles => .bool self.getOverwriteExistingFiles
  | .maxNumberOfActiveDownloads => .int self.getMaxNumberOfActiveDownloads
  | .limitCharacters => .bool self.getLimitCharacters
  | .includeAutoGeneratedSubtitles => .bool self.getIncludeAutoGeneratedSubtitles
  | .preferredVideoCodec => .codec self.getPreferredVideoCodec
  | .useAria => .bool self.getUseAria
  | .ariaMaxConnectionsPerServer => .int self.getAriaMaxConnectionsPerServer
  | .ariaMinSplitSize => .int self.getAriaMinSplitSize
  | .speedLimit => .uint self.getSpeedLimit
  | .proxyUrl => .string self.getProxyUrl
  | .cookiesBrowser => .browser self.getCookiesBrowser
  | .cookiesPath => .string self.getCookiesPath
  | .youTubeSponsorBlock => .bool self.getYouTubeSponsorBlock
  | .embedMetadata => .bool self.getEmbedMetadata
  | .cropAudioThumbnails => .bool self.getCropAudioThumbnails
  | .removeSourceData => .bool self.getRemoveSourceData
  | .embedChapters => .bool self.getEmbedChapters
  | .embedSubtitles => .bool self.getEmbedSubtitles
  | .ffmpegArgs => .string self.getFFmpegArgs

/-- One call of a mutator together with its argument: the nineteen ways in
which the owner of a `DownloaderOptions` can change it. -/
inductive Mutation where
  | setOverwriteExistingFiles (overwrite : Bool)
  | setMaxNumberOfActiveDownloads (max : Int)
  | setLimitCharacters (limit : Bool)
  | setIncludeAutoGeneratedSubtitles (include_ : Bool)
  | setPreferredVideoCodec (codec : VideoCodec)
  | setUseAria (useAria : Bool)
  | setAriaMaxConnectionsPerServer (maxConnections : Int)
  | setAriaMinSplitSize (minSplitSize : Int)
  | setSpeedLimit (speedLimit : Nat)
  | setProxyUrl (proxyUrl : String)
  | setCookiesBrowser (browser : Browser)
  | setCookiesPath (path : String)
  | setYouTubeSponsorBlock (sponsorBlock : Bool)
  | setEmbedMetadata (embedMetadata : Bool)
  | setCropAudioThumbnails (cropAudioThumbnails : Bool)
  | setRemoveSourceData (removeSourceData : Bool)
  | setEmbedChapters (embedChapters : Bool)
  | setEmbedSubtitles (embedSubtitles : Bool)
  | setFFmpegArgs (ffmpegArgs : String)
  deriving DecidableEq, Repr

/-- Performing a mutator call on an instance. -/
def Mutation.apply (m : Mutation) (self : DownloaderOptions) : DownloaderOptions :=
  match m with
  | .setOverwriteExistingFiles overwrite => self.setOverwriteExistingFiles overwrite
  | .setMaxNumberOfActiveDownloads max => self.setMaxNumberOfActiveDownloads max
  | .setLimitCharacters limit => self.setLimitCharacters limit
  | .setIncludeAutoGeneratedSubtitles include_ => self.setIncludeAutoGeneratedSubtitles include_
  | .setPreferredVideoCodec codec => self.setPreferredVideoCodec codec
  | .setUseAria useAria => self.setUseAria useAria
  | .setAriaMaxConnectionsPerServer maxConnections => self.setAriaMaxConnectionsPerServer maxConnections
  | .setAriaMinSplitSize minSplitSize => self.setAriaMinSplitSize minSplitSize
  | .setSpeedLimit speedLimit => self.setSpeedLimit speedLimit
  | .setProxyUrl proxyUrl => self.setProxyUrl proxyUrl
  | .setCookiesBrowser browser => self.setCookiesBrowser browser
  | .setCookiesPath path => self.setCookiesPath path
  | .setYouTubeSponsorBlock sponsorBlock => self.setYouTubeSponsorBlock sponsorBlock
  | .setEmbedMetadata embedMetadata => self.setEmbedMetadata embedMetadata
  | .setCropAudioThumbnails cropAudioThumbnails => self.setCropAudioThumbnails cropAudioThumbnails
  | .setRemoveSourceData removeSourceData => self.setRemoveSourceData removeSourceData
  | .setEmbedChapters embedChapters => self.setEmbedChapters embedChapters
  | .setEmbedSubtitles embedSubtitles => self.setEmbedSubtitles embedSubtitles
  | .setFFmpegArgs ffmpegArgs => self.setFFmpegArgs ffmpegArgs

/-- The setting whose mutator a call invokes. -/
def Mutation.target (m : Mutation) : Field :=
  match m with
  | .setOverwriteExistingFiles _ => .overwriteExistingFiles
  | .setMaxNumberOfActiveDownloads _ => .maxNumberOfActiveDownloads
  | .setLimitCharacters _ => .limitCharacters
  | .setIncludeAutoGeneratedSubtitles _ => .includeAutoGeneratedSubtitles
  | .setPreferredVideoCodec _ => .preferredVideoCodec
  | .setUseAria _ => .useAria
  | .setAriaMaxConnectionsPerServer _ => .ariaMaxConnectionsPerServer
  | .setAriaMinSplitSize _ => .ariaMinSplitSize
  | .setSpeedLimit _ => .speedLimit
  | .setProxyUrl _ => .proxyUrl
  | .setCookiesBrowser _ => .cookiesBrowser
  | .setCookiesPath _ => .cookiesPath
  | .setYouTubeSponsorBlock _ => .youTubeSponsorBlock
  | .setEmbedMetadata _ => .embedMetadata
  | .setCropAudioThumbnails _ => .cropAudioThumbnails
  | .setRemoveSourceData _ => .removeSourceData
  | .setEmbedChapters _ => .embedChapters
  | .setEmbedSubtitles _ => .embedSubtitles
  | .setFFmpegArgs _ => .ffmpegArgs

/-- Performing a finite sequence of mutator calls, first call first. -/
def Mutation.run (calls : List Mutation) (self : DownloaderOptions) : DownloaderOptions :=
  calls.foldl (fun acc m => m.apply acc) self

/-- The four numeric settings lie inside their closed ranges, as observed
through the accessors. -/
def RangeInvariant (self : DownloaderOptions) : Prop :=
  (1 ≤ self.getMaxNumberOfActiveDownloads ∧ self.getMaxNumberOfActiveDownloads ≤ 10) ∧
  (1 ≤ self.getAriaMaxConnectionsPerServer ∧ self.getAriaMaxConnectionsPerServer ≤ 16) ∧
  (1 ≤ self.getAriaMinSplitSize ∧ self.getAriaMinSplitSize ≤ 1024) ∧
  (512 ≤ self.getSpeedLimit ∧ self.getSpeedLimit ≤ 10240)

instance (self : DownloaderOptions) : Decidable (RangeInvariant self) := by
  unfold RangeInvariant
  infer_instance

/-- A call whose argument is valid for its setting: inside the closed range
that the mutator tests for the four numeric settings, and any argument for
the fifteen mutators that test nothing. -/
def Mutation.valid (m : Mutation) : Prop :=
  match m with
  | .setOverwriteExistingFiles _ => True
  | .setMaxNumberOfActiveDownloads max => 1 ≤ max ∧ max ≤ 10
  | .setLimitCharacters _ => True
  | .setIncludeAutoGeneratedSubtitles _ => True
  | .setPreferredVideoCodec _ => True
  | .setUseAria _ => True
  | .setAriaMaxConnectionsPerServer maxConnections => 1 ≤ maxConnections ∧ maxConnections ≤ 16
  | .setAriaMinSplitSize minSplitSize => 1 ≤ minSplitSize ∧ minSplitSize ≤ 1024
  | .setSpeedLimit speedLimit => 512 ≤ speedLimit ∧ speedLimit ≤ 10240
  | .setProxyUrl _ => True
  | .setCookiesBrowser _ => True
  | .setCookiesPath _ => True
  | .setYouTubeSponsorBlock _ => True
  | .setEmbedMetadata _ => True
  | .setCropAudioThumbnails _ => True
  | .setRemoveSourceData _ => True
  | .setEmbedChapters _ => True
  | .setEmbedSubtitles _ => True
  | .setFFmpegArgs _ => True

instance (m : Mutation) : Decidable m.valid := by
  cases m <;> unfold Mutation.valid <;> infer_instance

/-- Feeding the value that the accessor of a setting returns on `src` to the
mutator of the same setting on `tgt`. -/
def Field.restore (f : Field) (src tgt : DownloaderOptions) : DownloaderOptions :=
  match f with
  | .overwriteExistingFiles => tgt.setOverwriteExistingFiles src.getOverwriteExistingFiles
  | .maxNumberOfActiveDownloads => tgt.setMaxNumberOfActiveDownloads src.getMaxNumberOfActiveDownloads
  | .limitCharacters => tgt.setLimitCharacters src.getLimitCharacters
  | .includeAutoGeneratedSubtitles => tgt.setIncludeAutoGeneratedSubtitles src.getIncludeAutoGeneratedSubtitles
  | .preferredVideoCodec => tgt.setPreferredVideoCodec src.getPreferredVideoCodec
  | .useAria => tgt.setUseAria src.getUseAria
  | .ariaMaxConnectionsPerServer => tgt.setAriaMaxConnectionsPerServer src.getAriaMaxConnectionsPerServer
  | .ariaMinSplitSize => tgt.setAriaMinSplitSize src.getAriaMinSplitSize
  | .speedLimit => tgt.setSpeedLimit src.getSpeedLimit
  | .proxyUrl => tgt.setProxyUrl src.getProxyUrl
  | .cookiesBrowser => tgt.setCookiesBrowser src.getCookiesBrowser
  | .cookiesPath => tgt.setCookiesPath src.getCookiesPath
  | .youTubeSponsorBlock => tgt.setYouTubeSponsorBlock src.getYouTubeSponsorBlock
  | .embedMetadata => tgt.setEmbedMetadata src.getEmbedMetadata
  | .cropAudioThumbnails => tgt.setCropAudioThumbnails src.getCropAudioThumbnails
  | .removeSourceData => tgt.setRemoveSourceData src.getRemoveSourceData
  | .embedChapters => tgt.setEmbedChapters src.getEmbedChapters
  | .embedSubtitles => tgt.setEmbedSubtitles src.getEmbedSubtitles
  | .ffmpegArgs => tgt.setFFmpegArgs src.getFFmpegArgs

/-- The nineteen settings, in the order of their accessor/mutator pairs. -/
def Field.all : List Field :=
  [.overwriteExistingFiles, .maxNumberOfActiveDownloads, .limitCharacters,
   .includeAutoGeneratedSubtitles, .preferredVideoCodec, .useAria,
   .ariaMaxConnectionsPerServer, .ariaMinSplitSize, .speedLimit, .proxyUrl,
   .cookiesBrowser, .cookiesPath, .youTubeSponsorBlock, .embedMetadata,
   .cropAudioThumbnails, .removeSourceData, .embedChapters, .embedSubtitles, .ffmpegArgs]

/-- Feeding back the settings listed in `order`, first one first, from `src`
into `tgt`. -/
def Field.restoreAll (order : List Field) (src tgt : DownloaderOptions) : DownloaderOptions :=
  order.foldl (fun acc f => f.restore src acc) tgt

/-- The value an `unsigned int` parameter receives when the caller passes the
`int` value `n`: the implicit conversion reduces `n` modulo `2^32`. -/
def intToUnsigned (n : Int) : Nat :=
  (n % 2 ^ 32).toNat

end Nickvision.TubeConverter.Shared.Models

open Nickvision.TubeConverter.Shared.Models

/-! ## Auxiliary facts -/

/-- Every mutator call, on any instance satisfying the range predicate, gives
an instance satisfying it again. -/
theorem apply_preserves_range (m : Mutation) (s : DownloaderOptions)
    (h : RangeInvariant s) : RangeInvariant (m.apply s) := by
  obtain ⟨⟨h1, h2⟩, ⟨h3, h4⟩, ⟨h5, h6⟩, h7, h8⟩ := h
  simp only [DownloaderOptions.getMaxNumberOfActiveDownloads,
    DownloaderOptions.getAriaMaxConnectionsPerServer, DownloaderOptions.getAriaMinSplitSize,
    DownloaderOptions.getSpeedLimit] at h1 h2 h3 h4 h5 h6 h7 h8
  cases m <;>
    simp only [Mutation.apply, RangeInvariant, DownloaderOptions.getMaxNumberOfActiveDownloads,
      DownloaderOptions.getAriaMaxConnectionsPerServer, DownloaderOptions.getAriaMinSplitSize,
      DownloaderOptions.getSpeedLimit, DownloaderOptions.setOverwriteExistingFiles,
      DownloaderOptions.setMaxNumberOfActiveDownloads, DownloaderOptions.setLimitCharacters,
      DownloaderOptions.setIncludeAutoGeneratedSubtitles,
      DownloaderOptions.setPreferredVideoCodec, DownloaderOptions.setUseAria,
      DownloaderOptions.setAriaMaxConnectionsPerServer, DownloaderOptions.setAriaMinSplitSize,
      DownloaderOptions.setSpeedLimit, DownloaderOptions.setProxyUrl,
      DownloaderOptions.setCookiesBrowser, DownloaderOptions.setCookiesPath,
      DownloaderOptions.setYouTubeSponsorBlock, DownloaderOptions.setEmbedMetadata,
      DownloaderOptions.setCropAudioThumbnails, DownloaderOptions.setRemoveSourceData,
      DownloaderOptions.setEmbedChapters, DownloaderOptions.setEmbedSubtitles,
      DownloaderOptions.setFFmpegArgs] <;>
    first
      | exact ⟨⟨h1, h2⟩, ⟨h3, h4⟩, ⟨h5, h6⟩, h7, h8⟩
      | (split_ifs <;> omega)

/-- The range predicate holds of the constructed instance on every platform. -/
theorem constructed_in_range (os : OperatingSystem) :
    RangeInvariant (DownloaderOptions.DownloaderOptions os) := by
  simp [RangeInvariant, DownloaderOptions.DownloaderOptions,
    DownloaderOptions.getMaxNumberOfActiveDownloads,
    DownloaderOptions.getAriaMaxConnectionsPerServer, DownloaderOptions.getAriaMinSplitSize,
    DownloaderOptions.getSpeedLimit]

/-- A sequence of mutator calls keeps the range predicate. -/
theorem run_preserves_range (calls : List Mutation) :
    ∀ s : DownloaderOptions, RangeInvariant s → RangeInvariant (Mutation.run calls s) := by
  induction calls with
  | nil => intro s h; exact h
  | cons m rest ih =>
    intro s h
    exact ih (m.apply s) (apply_preserves_range m s h)

/-! ## Range invariant -/

/-- C1. On every platform the constructed instance has
`maxNumberOfActiveDownloads` in `[1, 10]`, `ariaMaxConnectionsPerServer` in
`[1, 16]`, `ariaMinSplitSize` in `[1, 1024]` and `speedLimit` in
`[512, 10240]`; each of the nineteen mutators, with any argument, preserves
these four bounds; hence they hold after every finite sequence of mutator
calls applied to a constructed instance. -/
theorem range_invariant_always (os : OperatingSystem) :
    RangeInvariant (DownloaderOptions.DownloaderOptions os) ∧
    (∀ (s : DownloaderOptions) (m : Mutation), RangeInvariant s → RangeInvariant (m.apply s)) ∧
    (∀ calls : List Mutation,
      RangeInvariant (Mutation.run calls (DownloaderOptions.DownloaderOptions os))) :=
  ⟨constructed_in_range os,
   fun s m h => apply_preserves_range m s h,
   fun calls => run_preserves_range calls _ (constructed_in_range os)⟩

/-- C1, at a concrete input: the constructed instance of a non-Windows
platform is in range, and stays in range under an out-of-range
`setSpeedLimit(20000)`. -/
theorem range_invariant_always_witness :
    RangeInvariant (DownloaderOptions.DownloaderOptions (OperatingSystem.other 0)) ∧
    RangeInvariant ((Mutation.setSpeedLimit 20000).apply
      (DownloaderOptions.DownloaderOptions (OperatingSystem.other 0))) :=
  ⟨by decide,
   (range_invariant_always (OperatingSystem.other 0)).2.1
     (DownloaderOptions.DownloaderOptions (OperatingSystem.other 0))
     (Mutation.setSpeedLimit 20000) (by decide)⟩

/-! ## The four validated mutators -/

/-- C2. After `setMaxNumberOfActiveDownloads(x)` on any instance, the accessor
returns `x` when `1 ≤ x ≤ 10` and `5` otherwise, whatever was stored before;
in particular `0` gives `5`, `11` gives `5` and `10` gives `10`. -/
theorem setMaxNumberOfActiveDownloads_spec :
    (∀ (s : DownloaderOptions) (x : Int),
      (s.setMaxNumberOfActiveDownloads x).getMaxNumberOfActiveDownloads
        = if 1 ≤ x ∧ x ≤ 10 then x else 5) ∧
    (∀ s : DownloaderOptions,
      (s.setMaxNumberOfActiveDownloads 0).getMaxNumberOfActiveDownloads = 5 ∧
      (s.setMaxNumberOfActiveDownloads 11).getMaxNumberOfActiveDownloads = 5 ∧
      (s.setMaxNumberOfActiveDownloads 10).getMaxNumberOfActiveDownloads = 10) := by
  refine ⟨fun s x => ?_, fun s => ⟨rfl, rfl, rfl⟩⟩
  simp only [DownloaderOptions.setMaxNumberOfActiveDownloads,
    DownloaderOptions.getMaxNumberOfActiveDownloads]
  split_ifs <;> first | rfl | omega

/-- C3. After `setSpeedLimit(x)` on any instance, the accessor returns `x`
when `512 ≤ x ≤ 10240` and `1024` otherwise, whatever was stored before; this
holds of every natural number `x`, so of every 32-bit unsigned one. In
particular `511` gives `1024`, `512` gives `512`, `10240` gives `10240` and
`10241` gives `1024`. -/
theorem setSpeedLimit_spec :
    (∀ (s : DownloaderOptions) (x : Nat),
      (s.setSpeedLimit x).getSpeedLimit = if 512 ≤ x ∧ x ≤ 10240 then x else 1024) ∧
    (∀ s : DownloaderOptions,
      (s.setSpeedLimit 511).getSpeedLimit = 1024 ∧
      (s.setSpeedLimit 512).getSpeedLimit = 512 ∧
      (s.setSpeedLimit 10240).getSpeedLimit = 10240 ∧
      (s.setSpeedLimit 10241).getSpeedLimit = 1024) := by
  refine ⟨fun s x => ?_, fun s => ⟨rfl, rfl, rfl, rfl⟩⟩
  simp only [DownloaderOptions.setSpeedLimit, DownloaderOptions.getSpeedLimit]
  split_ifs <;> first | rfl | omega

/-- C4. After `setAriaMaxConnectionsPerServer(x)` on any instance, the
accessor returns `x` when `1 ≤ x ≤ 16` and `16` otherwise, whatever was stored
before. -/
theorem setAriaMaxConnectionsPerServer_spec (s : DownloaderOptions) (x : Int) :
    (s.setAriaMaxConnectionsPerServer x).getAriaMaxConnectionsPerServer
      = if 1 ≤ x ∧ x ≤ 16 then x else 16 := by
  simp only [DownloaderOptions.setAriaMaxConnectionsPerServer,
    DownloaderOptions.getAriaMaxConnectionsPerServer]
  split_ifs <;> first | rfl | omega

/-- C5. After `setAriaMinSplitSize(x)` on any instance, the accessor returns
`x` when `1 ≤ x ≤ 1024` and `20` otherwise, whatever was stored before. -/
theorem setAriaMinSplitSize_spec (s : DownloaderOptions) (x : Int) :
    (s.setAriaMinSplitSize x).getAriaMinSplitSize
      = if 1 ≤ x ∧ x ≤ 1024 then x else 20 := by
  simp only [DownloaderOptions.setAriaMinSplitSize, DownloaderOptions.getAriaMinSplitSize]
  split_ifs <;> first | rfl | omega

/-! ## Independence of the settings -/

/-- C6. A mutator call, with any argument and on any instance, leaves the
value returned by the accessor of every setting other than its own
unchanged. -/
theorem mutation_frame (s : DownloaderOptions) (m : Mutation) (f : Field)
    (h : f ≠ m.target) : f.read (m.apply s) = f.read s := by
  cases m <;> cases f <;> first | rfl | exact absurd rfl h

/-- C6, at a concrete input: an out-of-range `setMaxNumberOfActiveDownloads(0)`
on the instance constructed on Windows does not change what `getSpeedLimit`
returns. -/
theorem mutation_frame_witness :
    Field.speedLimit ≠ (Mutation.setMaxNumberOfActiveDownloads 0).target ∧
    Field.speedLimit.read ((Mutation.setMaxNumberOfActiveDownloads 0).apply
        (DownloaderOptions.DownloaderOptions OperatingSystem.Windows))
      = Field.speedLimit.read (DownloaderOptions.DownloaderOptions OperatingSystem.Windows) :=
  ⟨by decide,
   mutation_frame (DownloaderOptions.DownloaderOptions OperatingSystem.Windows)
     (Mutation.setMaxNumberOfActiveDownloads 0) Field.speedLimit (by decide)⟩

/-! ## Construction -/

/-- C7. On every platform the constructed instance has
`overwriteExistingFiles = true`, `maxNumberOfActiveDownloads = 5`,
`includeAutoGeneratedSubtitles = true`, `preferredVideoCodec = Any`,
`useAria = false`, `ariaMaxConnectionsPerServer = 16`, `ariaMinSplitSize = 20`,
`speedLimit = 1024`, `proxyUrl = ""`, `cookiesBrowser = None`, an empty
`cookiesPath`, `youTubeSponsorBlock = false`, `embedMetadata = true`,
`cropAudioThumbnails = false`, `removeSourceData = false`,
`embedChapters = false`, `embedSubtitles = true` and `ffmpegArgs = ""`. -/
theorem constructed_defaults (os : OperatingSystem) :
    (DownloaderOptions.DownloaderOptions os).getOverwriteExistingFiles = true ∧
    (DownloaderOptions.DownloaderOptions os).getMaxNumberOfActiveDownloads = 5 ∧
    (DownloaderOptions.DownloaderOptions os).getIncludeAutoGeneratedSubtitles = true ∧
    (DownloaderOptions.DownloaderOptions os).getPreferredVideoCodec = VideoCodec.Any ∧
    (DownloaderOptions.DownloaderOptions os).getUseAria = false ∧
    (DownloaderOptions.DownloaderOptions os).getAriaMaxConnectionsPerServer = 16 ∧
    (DownloaderOptions.DownloaderOptions os).getAriaMinSplitSize = 20 ∧
    (DownloaderOptions.DownloaderOptions os).getSpeedLimit = 1024 ∧
    (DownloaderOptions.DownloaderOptions os).getProxyUrl = "" ∧
    (DownloaderOptions.DownloaderOptions os).getCookiesBrowser = Browser.None ∧
    (DownloaderOptions.DownloaderOptions os).getCookiesPath = "" ∧
    (DownloaderOptions.DownloaderOptions os).getYouTubeSponsorBlock = false ∧
    (DownloaderOptions.DownloaderOptions os).getEmbedMetadata = true ∧
    (DownloaderOptions.DownloaderOptions os).getCropAudioThumbnails = false ∧
    (DownloaderOptions.DownloaderOptions os).getRemoveSourceData = false ∧
    (DownloaderOptions.DownloaderOptions os).getEmbedChapters = false ∧
    (DownloaderOptions.DownloaderOptions os).getEmbedSubtitles = true ∧
    (DownloaderOptions.DownloaderOptions os).getFFmpegArgs = "" :=
  ⟨rfl, rfl, rfl, rfl, rfl, rfl, rfl, rfl, rfl, rfl, rfl, rfl, rfl, rfl, rfl, rfl, rfl, rfl⟩

/-- C8. With the platform query as the argument of the constructor: the
constructed instance has `limitCharacters = true` exactly when the platform is
Windows; a mutator call other than `setLimitCharacters` leaves what
`getLimitCharacters` returns unchanged; and so after any sequence of mutator
calls none of which is a `setLimitCharacters`, `getLimitCharacters` still
returns the value computed at construction. -/
theorem limitCharacters_platform_default :
    (∀ os : OperatingSystem,
      (DownloaderOptions.DownloaderOptions os).getLimitCharacters = true
        ↔ os = OperatingSystem.Windows) ∧
    (∀ (s : DownloaderOptions) (m : Mutation), m.target ≠ Field.limitCharacters →
      (m.apply s).getLimitCharacters = s.getLimitCharacters) ∧
    (∀ (os : OperatingSystem) (calls : List Mutation),
      (∀ m ∈ calls, m.target ≠ Field.limitCharacters) →
      (Mutation.run calls (DownloaderOptions.DownloaderOptions os)).getLimitCharacters
        = (DownloaderOptions.DownloaderOptions os).getLimitCharacters) := by
  have step : ∀ (s : DownloaderOptions) (m : Mutation), m.target ≠ Field.limitCharacters →
      (m.apply s).getLimitCharacters = s.getLimitCharacters := by
    intro s m h
    cases m <;> first | rfl | exact absurd rfl h
  refine ⟨fun os => ?_, step, fun os calls => ?_⟩
  · simp [DownloaderOptions.DownloaderOptions, DownloaderOptions.getLimitCharacters]
  · generalize DownloaderOptions.DownloaderOptions os = s
    induction calls generalizing s with
    | nil => intro _; rfl
    | cons m rest ih =>
      intro h
      have hm := h m (List.mem_cons_self m rest)
      have hrest : ∀ m' ∈ rest, m'.target ≠ Field.limitCharacters :=
        fun m' hm' => h m' (List.mem_cons_of_mem m hm')
      calc (Mutation.run (m :: rest) s).getLimitCharacters
          = (Mutation.run rest (m.apply s)).getLimitCharacters := rfl
        _ = (m.apply s).getLimitCharacters := ih (m.apply s) hrest
        _ = s.getLimitCharacters := step s m hm

/-- C8, at a concrete input: on a non-Windows platform, after
`setSpeedLimit(0)` and `setUseAria(true)`, `getLimitCharacters` returns what
it returned at construction, and that is `false`. -/
theorem limitCharacters_platform_default_witness :
    (∀ m ∈ [Mutation.setSpeedLimit 0, Mutation.setUseAria true],
      m.target ≠ Field.limitCharacters) ∧
    (Mutation.run [Mutation.setSpeedLimit 0, Mutation.setUseAria true]
        (DownloaderOptions.DownloaderOptions (OperatingSystem.other 1))).getLimitCharacters
      = (DownloaderOptions.DownloaderOptions (OperatingSystem.other 1)).getLimitCharacters ∧
    (DownloaderOptions.DownloaderOptions (OperatingSystem.other 1)).getLimitCharacters
      = false :=
  ⟨by decide,
   limitCharacters_platform_default.2.2 (OperatingSystem.other 1)
     [Mutation.setSpeedLimit 0, Mutation.setUseAria true] (by decide),
   by decide⟩

/-! ## The unvalidated mutators -/

/-- C9. After `setFFmpegArgs(v)` the accessor `getFFmpegArgs` returns `v`, and
after `setProxyUrl(v)` the accessor `getProxyUrl` returns `v`, for every
string `v` (the empty one and ill-formed ones included) and every instance. -/
theorem string_settings_pass_through :
    (∀ (s : DownloaderOptions) (v : String), (s.setFFmpegArgs v).getFFmpegArgs = v) ∧
    (∀ (s : DownloaderOptions) (v : String), (s.setProxyUrl v).getProxyUrl = v) :=
  ⟨fun _ _ => rfl, fun _ _ => rfl⟩

/-- C10. For each of the ten boolean settings, the two enumeration settings
and the path setting `cookiesPath`, the accessor after the mutator returns the
value passed to the mutator, for every value of the type and every
instance. -/
theorem unvalidated_settings_store (s : DownloaderOptions) :
    (∀ v : Bool, (s.setOverwriteExistingFiles v).getOverwriteExistingFiles = v) ∧
    (∀ v : Bool, (s.setLimitCharacters v).getLimitCharacters = v) ∧
    (∀ v : Bool,
      (s.setIncludeAutoGeneratedSubtitles v).getIncludeAutoGeneratedSubtitles = v) ∧
    (∀ v : Bool, (s.setUseAria v).getUseAria = v) ∧
    (∀ v : Bool, (s.setYouTubeSponsorBlock v).getYouTubeSponsorBlock = v) ∧
    (∀ v : Bool, (s.setEmbedMetadata v).getEmbedMetadata = v) ∧
    (∀ v : Bool, (s.setCropAudioThumbnails v).getCropAudioThumbnails = v) ∧
    (∀ v : Bool, (s.setRemoveSourceData v).getRemoveSourceData = v) ∧
    (∀ v : Bool, (s.setEmbedChapters v).getEmbedChapters = v) ∧
    (∀ v : Bool, (s.setEmbedSubtitles v).getEmbedSubtitles = v) ∧
    (∀ v : VideoCodec, (s.setPreferredVideoCodec v).getPreferredVideoCodec = v) ∧
    (∀ v : Browser, (s.setCookiesBrowser v).getCookiesBrowser = v) ∧
    (∀ v : String, (s.setCookiesPath v).getCookiesPath = v) :=
  ⟨fun _ => rfl, fun _ => rfl, fun _ => rfl, fun _ => rfl, fun _ => rfl, fun _ => rfl,
   fun _ => rfl, fun _ => rfl, fun _ => rfl, fun _ => rfl, fun _ => rfl, fun _ => rfl,
   fun _ => rfl⟩

/-! ## Algebra of the mutators -/

/-- Two instances on which all nineteen accessors agree are equal. -/
theorem eq_of_read_eq (a b : DownloaderOptions) (h : ∀ f : Field, f.read a = f.read b) :
    a = b := by
  cases a
  cases b
  have h1 := h .overwriteExistingFiles
  have h2 := h .maxNumberOfActiveDownloads
  have h3 := h .limitCharacters
  have h4 := h .includeAutoGeneratedSubtitles
  have h5 := h .preferredVideoCodec
  have h6 := h .useAria
  have h7 := h .ariaMaxConnectionsPerServer
  have h8 := h .ariaMinSplitSize
  have h9 := h .speedLimit
  have h10 := h .proxyUrl
  have h11 := h .cookiesBrowser
  have h12 := h .cookiesPath
  have h13 := h .youTubeSponsorBlock
  have h14 := h .embedMetadata
  have h15 := h .cropAudioThumbnails
  have h16 := h .removeSourceData
  have h17 := h .embedChapters
  have h18 := h .embedSubtitles
  have h19 := h .ffmpegArgs
  clear h
  simp only [Field.read, Value.bool.injEq, Value.int.injEq, Value.uint.injEq,
    Value.string.injEq, Value.codec.injEq, Value.browser.injEq,
    DownloaderOptions.getOverwriteExistingFiles,
    DownloaderOptions.getMaxNumberOfActiveDownloads, DownloaderOptions.getLimitCharacters,
    DownloaderOptions.getIncludeAutoGeneratedSubtitles,
    DownloaderOptions.getPreferredVideoCodec, DownloaderOptions.getUseAria,
    DownloaderOptions.getAriaMaxConnectionsPerServer, DownloaderOptions.getAriaMinSplitSize,
    DownloaderOptions.getSpeedLimit, DownloaderOptions.getProxyUrl,
    DownloaderOptions.getCookiesBrowser, DownloaderOptions.getCookiesPath,
    DownloaderOptions.getYouTubeSponsorBlock, DownloaderOptions.getEmbedMetadata,
    DownloaderOptions.getCropAudioThumbnails, DownloaderOptions.getRemoveSourceData,
    DownloaderOptions.getEmbedChapters, DownloaderOptions.getEmbedSubtitles,
    DownloaderOptions.getFFmpegArgs] at *
  subst_vars
  rfl

/-- Feeding a setting back changes no other setting of the target. -/
theorem restore_frame (f g : Field) (src tgt : DownloaderOptions) (h : g ≠ f) :
    g.read (f.restore src tgt) = g.read tgt := by
  cases f <;> cases g <;> first | rfl | exact absurd rfl h

/-- Feeding a setting back from an instance whose numeric settings are in
range makes the accessor of that setting agree with the source. -/
theorem restore_read (f : Field) (src tgt : DownloaderOptions) (h : RangeInvariant src) :
    f.read (f.restore src tgt) = f.read src := by
  obtain ⟨⟨h1, h2⟩, ⟨h3, h4⟩, ⟨h5, h6⟩, h7, h8⟩ := h
  simp only [DownloaderOptions.getMaxNumberOfActiveDownloads,
    DownloaderOptions.getAriaMaxConnectionsPerServer, DownloaderOptions.getAriaMinSplitSize,
    DownloaderOptions.getSpeedLimit] at h1 h2 h3 h4 h5 h6 h7 h8
  cases f <;> first
    | rfl
    | (simp only [Field.read, Field.restore, DownloaderOptions.getMaxNumberOfActiveDownloads,
        DownloaderOptions.setMaxNumberOfActiveDownloads,
        DownloaderOptions.getAriaMaxConnectionsPerServer,
        DownloaderOptions.setAriaMaxConnectionsPerServer,
        DownloaderOptions.getAriaMinSplitSize, DownloaderOptions.setAriaMinSplitSize,
        DownloaderOptions.getSpeedLimit, DownloaderOptions.setSpeedLimit]
       rw [if_neg (by omega)])

/-- After feeding back the settings listed in `order`, every setting that is
listed, and every setting on which the target already agreed with the source,
agrees with the source. -/
theorem restoreAll_read (src : DownloaderOptions) (h : RangeInvariant src)
    (order : List Field) :
    ∀ (tgt : DownloaderOptions) (g : Field), (g ∈ order ∨ g.read tgt = g.read src) →
      g.read (Field.restoreAll order src tgt) = g.read src := by
  induction order with
  | nil =>
    intro tgt g hg
    rcases hg with hg | hg
    · exact absurd hg (List.not_mem_nil g)
    · exact hg
  | cons f rest ih =>
    intro tgt g hg
    have hstep : Field.restoreAll (f :: rest) src tgt
        = Field.restoreAll rest src (f.restore src tgt) := rfl
    rw [hstep]
    by_cases hrest : g ∈ rest
    · exact ih _ g (Or.inl hrest)
    · refine ih _ g (Or.inr ?_)
      by_cases hgf : g = f
      · subst hgf
        exact restore_read g src tgt h
      · rw [restore_frame f g src tgt hgf]
        rcases hg with hg | hg
        · rcases List.mem_cons.mp hg with hg | hg
          · exact absurd hg hgf
          · exact absurd hg hrest
        · exact hg

/-- Every setting occurs in `Field.all`. -/
theorem mem_all (f : Field) : f ∈ Field.all := by
  cases f <;> simp [Field.all]

/-- C11. Applying a mutator twice in a row with the same valid argument (inside
the closed range for the four numeric settings, any value for the others)
gives an instance equal to the one obtained by applying it once. The
validity of the argument is not used by the proof. -/
theorem mutation_idempotent (s : DownloaderOptions) (m : Mutation) (_h : m.valid) :
    m.apply (m.apply s) = m.apply s := by
  cases m <;> rfl

/-- C11, at a concrete input: `setSpeedLimit(2048)` twice on the instance
constructed on Windows equals `setSpeedLimit(2048)` once. -/
theorem mutation_idempotent_witness :
    (Mutation.setSpeedLimit 2048).valid ∧
    (Mutation.setSpeedLimit 2048).apply ((Mutation.setSpeedLimit 2048).apply
        (DownloaderOptions.DownloaderOptions OperatingSystem.Windows))
      = (Mutation.setSpeedLimit 2048).apply
        (DownloaderOptions.DownloaderOptions OperatingSystem.Windows) :=
  ⟨by decide,
   mutation_idempotent (DownloaderOptions.DownloaderOptions OperatingSystem.Windows)
     (Mutation.setSpeedLimit 2048) (by decide)⟩

/-- C12. For an instance reached from construction by any sequence of mutator
calls: feeding the accessors' values back into the corresponding mutators of
the same instance, for any list of settings in any order, gives the instance
back; feeding them into the mutators of any other instance, for a list that
names all nineteen settings in any order, gives an instance equal to the
first. An instance whose stored `speedLimit` is outside its range (one that no
sequence of calls produces) is not given back. -/
theorem persistence_round_trip :
    (∀ (os : OperatingSystem) (calls : List Mutation) (order : List Field),
      Field.restoreAll order (Mutation.run calls (DownloaderOptions.DownloaderOptions os))
          (Mutation.run calls (DownloaderOptions.DownloaderOptions os))
        = Mutation.run calls (DownloaderOptions.DownloaderOptions os)) ∧
    (∀ (os : OperatingSystem) (calls : List Mutation) (order : List Field)
        (tgt : DownloaderOptions), (∀ f : Field, f ∈ order) →
      Field.restoreAll order (Mutation.run calls (DownloaderOptions.DownloaderOptions os)) tgt
        = Mutation.run calls (DownloaderOptions.DownloaderOptions os)) ∧
    (∃ s : DownloaderOptions, ¬ RangeInvariant s ∧ Field.speedLimit.restore s s ≠ s) := by
  refine ⟨fun os calls order => ?_, fun os calls order tgt hall => ?_, ?_⟩
  · have hr := run_preserves_range calls _ (constructed_in_range os)
    exact eq_of_read_eq _ _ (fun g => restoreAll_read _ hr order _ g (Or.inr rfl))
  · have hr := run_preserves_range calls _ (constructed_in_range os)
    exact eq_of_read_eq _ _ (fun g => restoreAll_read _ hr order tgt g (Or.inl (hall g)))
  · exact ⟨{ DownloaderOptions.DownloaderOptions OperatingSystem.Windows with m_speedLimit := 0 },
      by decide, by decide⟩

/-- C12, at a concrete input: the instance constructed on Windows and then
given `setSpeedLimit(0)` and `setUseAria(true)` is rebuilt, setting by
setting, inside an instance constructed on another platform. -/
theorem persistence_round_trip_witness :
    (∀ f : Field, f ∈ Field.all) ∧
    Field.restoreAll Field.all
        (Mutation.run [Mutation.setSpeedLimit 0, Mutation.setUseAria true]
          (DownloaderOptions.DownloaderOptions OperatingSystem.Windows))
        (DownloaderOptions.DownloaderOptions (OperatingSystem.other 0))
      = Mutation.run [Mutation.setSpeedLimit 0, Mutation.setUseAria true]
          (DownloaderOptions.DownloaderOptions OperatingSystem.Windows) :=
  ⟨mem_all,
   persistence_round_trip.2.1 OperatingSystem.Windows
     [Mutation.setSpeedLimit 0, Mutation.setUseAria true] Field.all
     (DownloaderOptions.DownloaderOptions (OperatingSystem.other 0)) mem_all⟩

/-- C13. Two mutator calls on different settings, with any arguments (valid
or out of range), give the same instance in either order. -/
theorem mutations_commute (s : DownloaderOptions) (m₁ m₂ : Mutation)
    (h : m₁.target ≠ m₂.target) : m₂.apply (m₁.apply s) = m₁.apply (m₂.apply s) := by
  cases m₁ <;> cases m₂ <;> first | rfl | exact absurd rfl h

/-- C13, at a concrete input: an out-of-range `setSpeedLimit(0)` and
`setMaxNumberOfActiveDownloads(11)` commute on the instance constructed on
Windows. -/
theorem mutations_commute_witness :
    (Mutation.setSpeedLimit 0).target ≠ (Mutation.setMaxNumberOfActiveDownloads 11).target ∧
    (Mutation.setMaxNumberOfActiveDownloads 11).apply ((Mutation.setSpeedLimit 0).apply
        (DownloaderOptions.DownloaderOptions OperatingSystem.Windows))
      = (Mutation.setSpeedLimit 0).apply ((Mutation.setMaxNumberOfActiveDownloads 11).apply
        (DownloaderOptions.DownloaderOptions OperatingSystem.Windows)) :=
  ⟨by decide,
   mutations_commute (DownloaderOptions.DownloaderOptions OperatingSystem.Windows)
     (Mutation.setSpeedLimit 0) (Mutation.setMaxNumberOfActiveDownloads 11) (by decide)⟩

/-- C14. Two calls of the same mutator in a row, with any arguments (valid or
out of range), give the same instance as the second call alone; in particular
an out-of-range second call to one of the four validated mutators leaves the
fixed default (`5`, `16`, `20`, `1024`) in the setting, whatever the first
call stored. -/
theorem last_write_wins :
    (∀ (s : DownloaderOptions) (m₁ m₂ : Mutation), m₁.target = m₂.target →
      m₂.apply (m₁.apply s) = m₂.apply s) ∧
    (∀ (s : DownloaderOptions) (a b : Int), b < 1 ∨ b > 10 →
      ((s.setMaxNumberOfActiveDownloads a).setMaxNumberOfActiveDownloads
        b).getMaxNumberOfActiveDownloads = 5) ∧
    (∀ (s : DownloaderOptions) (a b : Int), b < 1 ∨ b > 16 →
      ((s.setAriaMaxConnectionsPerServer a).setAriaMaxConnectionsPerServer
        b).getAriaMaxConnectionsPerServer = 16) ∧
    (∀ (s : DownloaderOptions) (a b : Int), b < 1 ∨ b > 1024 →
      ((s.setAriaMinSplitSize a).setAriaMinSplitSize b).getAriaMinSplitSize = 20) ∧
    (∀ (s : DownloaderOptions) (a b : Nat), b < 512 ∨ b > 10240 →
      ((s.setSpeedLimit a).setSpeedLimit b).getSpeedLimit = 1024) := by
  refine ⟨fun s m₁ m₂ h => ?_, fun s a b h => ?_, fun s a b h => ?_, fun s a b h => ?_,
    fun s a b h => ?_⟩
  · cases m₁ <;> cases m₂ <;> first | rfl | exact absurd h (by simp [Mutation.target])
  · simp only [DownloaderOptions.setMaxNumberOfActiveDownloads,
      DownloaderOptions.getMaxNumberOfActiveDownloads]
    rw [if_pos h]
  · simp only [DownloaderOptions.setAriaMaxConnectionsPerServer,
      DownloaderOptions.getAriaMaxConnectionsPerServer]
    rw [if_pos h]
  · simp only [DownloaderOptions.setAriaMinSplitSize, DownloaderOptions.getAriaMinSplitSize]
    rw [if_pos h]
  · simp only [DownloaderOptions.setSpeedLimit, DownloaderOptions.getSpeedLimit]
    rw [if_pos h]

/-- C14, at a concrete input: on the instance constructed on Windows,
`setSpeedLimit(2048)` followed by the out-of-range `setSpeedLimit(11000)`
equals `setSpeedLimit(11000)` alone, and the stored value is `1024`, not
`2048`. -/
theorem last_write_wins_witness :
    (Mutation.setSpeedLimit 2048).target = (Mutation.setSpeedLimit 11000).target ∧
    (Mutation.setSpeedLimit 11000).apply ((Mutation.setSpeedLimit 2048).apply
        (DownloaderOptions.DownloaderOptions OperatingSystem.Windows))
      = (Mutation.setSpeedLimit 11000).apply
        (DownloaderOptions.DownloaderOptions OperatingSystem.Windows) ∧
    (((DownloaderOptions.DownloaderOptions OperatingSystem.Windows).setSpeedLimit
      2048).setSpeedLimit 11000).getSpeedLimit = 1024 :=
  ⟨by decide,
   last_write_wins.1 (DownloaderOptions.DownloaderOptions OperatingSystem.Windows)
     (Mutation.setSpeedLimit 2048) (Mutation.setSpeedLimit 11000) (by decide),
   last_write_wins.2.2.2.2 (DownloaderOptions.DownloaderOptions OperatingSystem.Windows)
     2048 11000 (by decide)⟩

/-! ## Signed arguments to `setSpeedLimit` -/

/-- A negative 32-bit `int` converts to an `unsigned int` of at least `2^31`. -/
theorem intToUnsigned_neg (n : Int) (hlo : -2 ^ 31 ≤ n) (hneg : n < 0) :
    2 ^ 31 ≤ intToUnsigned n := by
  unfold intToUnsigned
  norm_num at hlo ⊢
  omega

/-- C15. For every negative 32-bit signed integer `n` passed to
`setSpeedLimit`, the parameter receives `n mod 2^32`, which is not in
`[512, 10240]`, and the stored `speedLimit` is `1024`. -/
theorem setSpeedLimit_negative (s : DownloaderOptions) (n : Int)
    (hlo : -2 ^ 31 ≤ n) (hneg : n < 0) :
    ¬ (512 ≤ intToUnsigned n ∧ intToUnsigned n ≤ 10240) ∧
    (s.setSpeedLimit (intToUnsigned n)).getSpeedLimit = 1024 := by
  have hbig : 2 ^ 31 ≤ intToUnsigned n := intToUnsigned_neg n hlo hneg
  norm_num at hbig
  have hout : intToUnsigned n < 512 ∨ intToUnsigned n > 10240 := by omega
  refine ⟨by omega, ?_⟩
  simp only [DownloaderOptions.setSpeedLimit, DownloaderOptions.getSpeedLimit]
  rw [if_pos hout]

/-- C15, at a concrete input: `setSpeedLimit(-1)` on the instance constructed
on Windows receives `4294967295` and stores `1024`. -/
theorem setSpeedLimit_negative_witness :
    intToUnsigned (-1) = 4294967295 ∧
    ¬ (512 ≤ intToUnsigned (-1) ∧ intToUnsigned (-1) ≤ 10240) ∧
    ((DownloaderOptions.DownloaderOptions OperatingSystem.Windows).setSpeedLimit
      (intToUnsigned (-1))).getSpeedLimit = 1024 :=
  ⟨by decide,
   setSpeedLimit_negative (DownloaderOptions.DownloaderOptions OperatingSystem.Windows) (-1)
     (by decide) (by decide)⟩
